import Mathlib

/-!
# TeamPulse PR metadata action: `src/index.js`

A shallow embedding of `run()`: the aggregation of the pull-request metadata
into one payload and its submission with bounded exponential backoff.

The external collaborators of `run()` (the action inputs, the trigger context,
the Octokit client, axios, the clock) are an environment the run reads from;
every observable call the run makes is recorded, in order, in a trace.
-/

namespace TeamPulse

/-! ## JavaScript values -/

/-- JavaScript values as they reach `run()`: the JSON values of the event
payload and of the API responses, plus `undefined`, which a member access on a
missing key produces. Numbers are integers (ids, counts, statuses). -/
inductive JSValue where
  | undefined
  | null
  | bool (b : Bool)
  | num (n : Int)
  | str (s : String)
  | arr (items : List JSValue)
  | obj (fields : List (String × JSValue))

/-- A JavaScript object: its own properties, in insertion order. -/
abbrev JSObject := List (String × JSValue)

/-- Truthiness: `!v` is `!(truthy v)`. -/
def JSValue.truthy : JSValue → Bool
  | .undefined => false
  | .null => false
  | .bool b => b
  | .num n => n != 0
  | .str s => s != ""
  | .arr _ => true
  | .obj _ => true

/-- Member access `o.key` on an object: the first binding of the key, and
`undefined` when the object has no such property. -/
def JSObject.get : JSObject → String → JSValue
  | [], _ => .undefined
  | (k, v) :: rest, key => if k = key then v else JSObject.get rest key

/-- The response of an HTTP exchange, as axios hands it over (`res.status`,
`error.response.status`). -/
structure AxiosResponse where
  status : Nat

/-- A thrown error: its `message`, and the `response` an axios error carries
when the server answered. -/
structure JSError where
  message : String
  response : Option AxiosResponse

/-- The `TypeError` of a member access on `null` or `undefined` (V8 wording). -/
def typeError (base key : String) : JSError :=
  { message := "Cannot read properties of " ++ base ++ " (reading \x27" ++ key ++ "\x27)",
    response := none }

/-- Member access `v.key`. It throws on `null` and `undefined`; on an object it
reads the property; on the other values it is `undefined` for every key the
program reads (none of them is a prototype property). -/
def JSValue.get (v : JSValue) (key : String) : Except JSError JSValue :=
  match v with
  | .undefined => .error (typeError "undefined" key)
  | .null => .error (typeError "null" key)
  | .obj fields => .ok (JSObject.get fields key)
  | _ => .ok .undefined

/-- Optional chaining `v?.key`: `undefined` when `v` is `null` or `undefined`,
the member access otherwise. -/
def JSValue.optGet (v : JSValue) (key : String) : JSValue :=
  match v with
  | .undefined => .undefined
  | .null => .undefined
  | .obj fields => JSObject.get fields key
  | _ => .undefined

/-! ## JSON serialization of the request body -/

/-- JSON documents. -/
inductive Json where
  | null
  | bool (b : Bool)
  | num (n : Int)
  | str (s : String)
  | arr (items : List Json)
  | obj (fields : List (String × Json))

mutual
/-- The document `JSON.stringify` writes for a value (ECMAScript
`SerializeJSONProperty`): nothing for `undefined`; in an object a property
whose value is `undefined` is left out; in an array such an element is written
as `null`. -/
def JSValue.stringify : JSValue → Option Json
  | .undefined => none
  | .null => some .null
  | .bool b => some (.bool b)
  | .num n => some (.num n)
  | .str s => some (.str s)
  | .arr items => some (.arr (stringifyItems items))
  | .obj fields => some (.obj (stringifyFields fields))
/-- Elements of a serialized array. -/
def stringifyItems : List JSValue → List Json
  | [] => []
  | v :: vs =>
    (match v.stringify with
     | some j => j
     | none => Json.null) :: stringifyItems vs
/-- Properties of a serialized object. -/
def stringifyFields : List (String × JSValue) → List (String × Json)
  | [] => []
  | (k, v) :: rest =>
    match v.stringify with
    | some j => (k, j) :: stringifyFields rest
    | none => stringifyFields rest
end

/-- The keys of a serialized object. -/
def Json.keys : Json → List String
  | .obj fields => fields.map Prod.fst
  | _ => []

/-! ## Effects and traces -/

/-- The five reads `run()` makes from the source-control API. -/
inductive Fetch where
  | pullsGet
  | listComments
  | listReviews
  | listReviewComments
  | listEventsForTimeline
  deriving DecidableEq, Repr

/-- The observable calls of `run()`. -/
inductive Effect where
  | info (msg : String)
  | warning (msg : String)
  | error (msg : String)
  | setFailed (msg : String)
  | fetch (f : Fetch) (owner repo : String) (number : JSValue)
  | post (url : String) (body : JSValue) (headers : List (String × String))
  | sleep (ms : Nat)
  | setOutput (name : String) (value : Nat)

/-- A computation of `run()`: the calls it made, in order, and how it ended
(a value, or a thrown error). -/
structure Act (α : Type) where
  trace : List Effect
  val : Except JSError α

/-- Sequencing: a thrown error skips the rest. -/
def Act.bind {α β : Type} (x : Act α) (f : α → Act β) : Act β :=
  match x.val with
  | .ok a => { trace := x.trace ++ (f a).trace, val := (f a).val }
  | .error e => { trace := x.trace, val := .error e }

instance : Monad Act where
  pure a := { trace := [], val := .ok a }
  bind := Act.bind

/-- One call that returns nothing and does not throw. -/
def emit (e : Effect) : Act Unit :=
  { trace := [e], val := .ok () }

/-- An awaited call: it is recorded, and it resolves or rejects as the
environment says. -/
def call {α : Type} (e : Effect) (r : Except JSError α) : Act α :=
  { trace := [e], val := r }

/-- A step without calls that may throw. -/
def eval {α : Type} (r : Except JSError α) : Act α :=
  { trace := [], val := r }

/-- The statement `try { body } catch (err) { handler }`. -/
def tryCatch {α : Type} (body : Act α) (handler : JSError → Act α) : Act α :=
  match body.val with
  | .ok a => { trace := body.trace, val := .ok a }
  | .error e => { trace := body.trace ++ (handler e).trace, val := (handler e).val }

/-! ## The environment of a run -/

/-- What a run reads from its collaborators: the action inputs
(`core.getInput` with `required: true` throws when the input is not supplied),
the trigger context, and the answers of the source-control API. A paginated
stream answers with its pages, or fails as a whole. -/
structure Env where
  getInput : String → Except JSError String
  pull_request : JSValue
  repo : Except JSError (String × String)
  pullsGet : Except JSError JSObject
  listComments : Except JSError (List (List JSObject))
  listReviews : Except JSError (List (List JSObject))
  listReviewComments : Except JSError (List (List JSObject))
  listEventsForTimeline : Except JSError (List (List JSObject))

/-- The error a fetch fails with in this environment, if it fails. -/
def Env.failure (env : Env) : Fetch → Option JSError
  | .pullsGet => match env.pullsGet with | .error e => some e | .ok _ => none
  | .listComments => match env.listComments with | .error e => some e | .ok _ => none
  | .listReviews => match env.listReviews with | .error e => some e | .ok _ => none
  | .listReviewComments =>
    match env.listReviewComments with | .error e => some e | .ok _ => none
  | .listEventsForTimeline =>
    match env.listEventsForTimeline with | .error e => some e | .ok _ => none

/-- The call `octokit.paginate(route, params)`: one awaited call that resolves
with the items of all pages, in page order, or rejects. -/
def paginate (f : Fetch) (owner repo : String) (number : JSValue)
    (pages : Except JSError (List (List JSObject))) : Act (List JSObject) :=
  call (.fetch f owner repo number) (pages.map List.flatten)

/-! ## Aggregation (`run()`, steps 1 to 4 and the final payload) -/

/-- The object literal `pullRequestDetails` (lines 37-54). The accesses
`prDetails.user.id` and the three after it throw when `prDetails.user` is
`null` or `undefined`. -/
def pullRequestDetails (prDetails : JSObject) : Except JSError JSValue := do
  let user := prDetails.get "user"
  let id ← user.get "id"
  let login ← user.get "login"
  let avatar_url ← user.get "avatar_url"
  let type ← user.get "type"
  pure (.obj [
    ("id", prDetails.get "id"),
    ("number", prDetails.get "number"),
    ("title", prDetails.get "title"),
    ("created_at", prDetails.get "created_at"),
    ("merged_at", prDetails.get "merged_at"),
    ("additions", prDetails.get "additions"),
    ("deletions", prDetails.get "deletions"),
    ("changed_files", prDetails.get "changed_files"),
    ("comments", prDetails.get "comments"),
    ("review_comments", prDetails.get "review_comments"),
    ("user", .obj [
      ("id", id),
      ("login", login),
      ("avatar_url", avatar_url),
      ("type", type)])])

/-- The `user` literal of the three stream projections, with optional
chaining on the record's `user`. -/
def userOf (user : JSValue) : JSValue :=
  .obj [
    ("id", user.optGet "id"),
    ("login", user.optGet "login"),
    ("avatar_url", user.optGet "avatar_url"),
    ("type", user.optGet "type")]

/-- The projection of an issue comment (lines 62-71). -/
def commentOf (ic : JSObject) : JSValue :=
  .obj [
    ("id", ic.get "id"),
    ("user", userOf (ic.get "user")),
    ("created_at", ic.get "created_at")]

/-- The projection of a review (lines 79-90). -/
def reviewOf (r : JSObject) : JSValue :=
  .obj [
    ("id", r.get "id"),
    ("state", r.get "state"),
    ("user", userOf (r.get "user")),
    ("submitted_at", r.get "submitted_at"),
    ("comments", r.get "comments")]

/-- The projection of a review comment (lines 98-107). -/
def reviewCommentOf (rc : JSObject) : JSValue :=
  .obj [
    ("id", rc.get "id"),
    ("user", userOf (rc.get "user")),
    ("created_at", rc.get "created_at")]

/-- The projection of a timeline event (lines 115-118). -/
def timelineOf (te : JSObject) : JSValue :=
  .obj [
    ("event", te.get "event"),
    ("created_at", te.get "created_at")]

/-- The object literal `payload` (lines 121-133). -/
def payloadOf (owner repo : String) (pullRequestDetails : JSValue)
    (comments reviews review_comments timeline : List JSValue) : JSValue :=
  .obj [
    ("repository", .obj [
      ("owner", .str owner),
      ("name", .str repo)]),
    ("data", .obj [
      ("pull_request", pullRequestDetails),
      ("comments", .arr comments),
      ("reviews", .arr reviews),
      ("review_comments", .arr review_comments),
      ("timeline", .arr timeline)])]

/-- What the aggregation hands to the submission. -/
structure Prepared where
  apiEndpoint : String
  apiAuthToken : String
  payload : JSValue

/-- Lines 29-133 of `run()`: fetch the five collections, project them and
build the payload. -/
def collect (env : Env) (owner repo : String) (prNumber : JSValue)
    (apiEndpoint apiAuthToken : String) : Act (Option Prepared) := do
  let prDetails ← call (.fetch .pullsGet owner repo prNumber) env.pullsGet
  let pullRequestDetails ← eval (pullRequestDetails prDetails)
  let issueComments ← paginate .listComments owner repo prNumber env.listComments
  let comments := issueComments.map commentOf
  let prReviews ← paginate .listReviews owner repo prNumber env.listReviews
  let reviews := prReviews.map reviewOf
  let reviewCommentsData ←
    paginate .listReviewComments owner repo prNumber env.listReviewComments
  let review_comments := reviewCommentsData.map reviewCommentOf
  let timelineData ←
    paginate .listEventsForTimeline owner repo prNumber env.listEventsForTimeline
  let timeline := timelineData.map timelineOf
  pure (some {
    apiEndpoint := apiEndpoint
    apiAuthToken := apiAuthToken
    payload := payloadOf owner repo pullRequestDetails comments reviews review_comments
      timeline })

/-- Lines 7-133 of `run()`: read the inputs, check the context, then collect.
The result is `none` on the two early returns. -/
def aggregate (env : Env) : Act (Option Prepared) := do
  let _githubToken ← eval (env.getInput "github_token")
  let apiEndpoint ← eval (env.getInput "api_endpoint")
  let apiAuthToken ← eval (env.getInput "teampulse_token")
  if !env.pull_request.truthy then do
    emit (.setFailed "This action must be run in the context of a Pull Request event.")
    pure none
  else do
    let pr := env.pull_request
    let merged ← eval (pr.get "merged")
    if !merged.truthy then do
      emit (.info "PR is not merged. Skipping action.")
      pure none
    else do
      let (owner, repo) ← eval env.repo
      let prNumber ← eval (pr.get "number")
      collect env owner repo prNumber apiEndpoint apiAuthToken

/-! ## Submission (`run()`, steps 5 and 6) -/

/-- How one `axios.post` ends: it resolves with a response, or rejects with an
error (a transport failure, or a status axios rejects on). -/
abbrev PostOutcome := Except JSError AxiosResponse

/-- The expression `error.response?.status || 0`: an absent response and a
status of 0 both give 0. -/
def statusOrZero (error : JSError) : Nat :=
  match error.response with
  | none => 0
  | some response => if response.status ≠ 0 then response.status else 0

/-- The value an attempt assigns to `finalStatus`: `res.status` when the POST
resolves (line 149), `error.response?.status || 0` when it rejects (lines
154-156). -/
def attemptStatus : PostOutcome → Nat
  | .ok res => res.status
  | .error error => statusOrZero error

/-- The request headers of every attempt. -/
def headersOf (apiAuthToken : String) : List (String × String) :=
  [("Content-Type", "application/json"), ("Authorization", "Bearer " ++ apiAuthToken)]

/-- The `for` loop of lines 140-166, entered at the loop test with the current
values of `attempt`, `delayMs` and `finalStatus`; it returns `finalStatus` as
the loop leaves it. The POST of attempt `n` ends as `post n` says. Leaving the
`try` block normally is the `break`; the `catch` block goes on to the next
iteration. -/
def submitLoop (post : Nat → PostOutcome) (apiEndpoint apiAuthToken : String)
    (payload : JSValue) (maxRetries : Nat) (attempt delayMs finalStatus : Nat) : Act Nat :=
  if attempt ≤ maxRetries then
    tryCatch
      (do
        emit (.info ("Attempt " ++ toString attempt ++ " to send data"))
        let res ← call (.post apiEndpoint payload (headersOf apiAuthToken)) (post attempt)
        let finalStatus := res.status
        emit (.info ("Successfully sent PR data. HTTP status: " ++ toString finalStatus))
        pure finalStatus)
      (fun error => do
        let status := statusOrZero error
        emit (.warning ("Attempt " ++ toString attempt ++ " failed with status "
          ++ toString status ++ ". Error: " ++ error.message))
        let finalStatus := status
        if attempt < maxRetries then do
          emit (.info ("Retrying in " ++ toString delayMs ++ "ms..."))
          emit (.sleep delayMs)
          submitLoop post apiEndpoint apiAuthToken payload maxRetries (attempt + 1)
            (delayMs * 2) finalStatus
        else do
          emit (.error ("All " ++ toString maxRetries ++ " attempts failed."))
          emit (.setFailed error.message)
          submitLoop post apiEndpoint apiAuthToken payload maxRetries (attempt + 1)
            delayMs finalStatus)
  else
    pure finalStatus
termination_by maxRetries + 1 - attempt
decreasing_by all_goals omega

/-- Lines 135-169: the retry policy, the loop, and the `http_status` output. -/
def submit (post : Nat → PostOutcome) (p : Prepared) : Act Unit := do
  let maxRetries := 5
  let delayMs := 5000
  let finalStatus := 0
  let finalStatus ← submitLoop post p.apiEndpoint p.apiAuthToken p.payload maxRetries 1
    delayMs finalStatus
  emit (.setOutput "http_status" finalStatus)

/-- The function `run()`: the body under the outer `try`, and the `catch` that
marks the run failed. -/
def run (env : Env) (post : Nat → PostOutcome) : Act Unit :=
  tryCatch
    (do
      let prepared ← aggregate env
      match prepared with
      | none => pure ()
      | some p => submit post p)
    (fun err => emit (.setFailed ("Action failed: " ++ err.message)))

/-! ## Observations on a trace -/

/-- The fetches made, in order. -/
def fetches : List Effect → List Fetch
  | [] => []
  | .fetch f _ _ _ :: t => f :: fetches t
  | _ :: t => fetches t

/-- The number of POSTs made. -/
def posts : List Effect → Nat
  | [] => 0
  | .post _ _ _ :: t => posts t + 1
  | _ :: t => posts t

/-- The delays slept, in order. -/
def sleeps : List Effect → List Nat
  | [] => []
  | .sleep ms :: t => ms :: sleeps t
  | _ :: t => sleeps t

/-- The messages the run was marked failed with, in order. -/
def failures : List Effect → List String
  | [] => []
  | .setFailed msg :: t => msg :: failures t
  | _ :: t => failures t

/-- The values set for the output `http_status`, in order. -/
def httpStatus : List Effect → List Nat
  | [] => []
  | .setOutput name value :: t =>
    if name = "http_status" then value :: httpStatus t else httpStatus t
  | _ :: t => httpStatus t

/-- A POST or a sleep. -/
inductive Wire where
  | post
  | sleep (ms : Nat)
  deriving DecidableEq, Repr

/-- The POSTs and sleeps of a trace, in order. -/
def wire : List Effect → List Wire
  | [] => []
  | .post _ _ _ :: t => .post :: wire t
  | .sleep ms :: t => .sleep ms :: wire t
  | _ :: t => wire t

/-- The bodies of the POSTs made, in order. -/
def bodies : List Effect → List JSValue
  | [] => []
  | .post _ body _ :: t => body :: bodies t
  | _ :: t => bodies t

/-- The order in which `run()` makes its fetches. -/
def fetchOrder : List Fetch :=
  [.pullsGet, .listComments, .listReviews, .listReviewComments, .listEventsForTimeline]

/-! ## The four streams of the payload -/

/-- The paginated streams. -/
inductive Stream where
  | comments
  | reviews
  | review_comments
  | timeline
  deriving DecidableEq, Repr

/-- The key of a stream under `data` in the payload. -/
def Stream.key : Stream → String
  | .comments => "comments"
  | .reviews => "reviews"
  | .review_comments => "review_comments"
  | .timeline => "timeline"

/-- The per-record projection `run()` maps over a stream. -/
def Stream.project : Stream → JSObject → JSValue
  | .comments => commentOf
  | .reviews => reviewOf
  | .review_comments => reviewCommentOf
  | .timeline => timelineOf

/-- The answer of the paginated source for a stream. -/
def Env.pages (env : Env) : Stream → Except JSError (List (List JSObject))
  | .comments => env.listComments
  | .reviews => env.listReviews
  | .review_comments => env.listReviewComments
  | .timeline => env.listEventsForTimeline

/-- The elements of an array value. -/
def JSValue.items : JSValue → List JSValue
  | .arr items => items
  | _ => []

/-- The sequence `payload.data[key]`. -/
def payloadSeq (payload : JSValue) (key : String) : List JSValue :=
  ((payload.optGet "data").optGet key).items

/-- The `user` object every stream projection builds when the record has no
user: the four keys are there, each holding `undefined`. -/
def undefinedUser : JSValue :=
  .obj [("id", .undefined), ("login", .undefined), ("avatar_url", .undefined),
    ("type", .undefined)]

/-- The status a response carried, if the attempt received one. -/
def specObservedStatus : PostOutcome → Option Nat
  | .ok res => some res.status
  | .error error => error.response.map AxiosResponse.status

/-- The last observed status as the specification words it: the status of the
most recent attempt that received a response, and 0 when no attempt did. -/
def specLastObservedStatus (outcomes : List PostOutcome) : Nat :=
  ((outcomes.filterMap specObservedStatus).getLast?).getD 0

/-- The five fetches of a collection that went through. -/
def allFetches (owner repo : String) (n : JSValue) : List Effect :=
  [.fetch .pullsGet owner repo n, .fetch .listComments owner repo n,
   .fetch .listReviews owner repo n, .fetch .listReviewComments owner repo n,
   .fetch .listEventsForTimeline owner repo n]

/-! ## Sample data -/

/-- A user record. -/
def sampleUser : JSValue :=
  .obj [("id", .num 42), ("login", .str "octocat"),
    ("avatar_url", .str "https://example.test/a.png"), ("type", .str "User"),
    ("site_admin", .bool false)]

/-- The pull request of a merged-PR event. -/
def samplePullRequest : JSValue :=
  .obj [("number", .num 7), ("merged", .bool true)]

/-- A pull-request summary record. -/
def sampleDetails : JSObject :=
  [("id", .num 1001), ("number", .num 7), ("title", .str "Add retry"),
   ("created_at", .str "2024-01-01T00:00:00Z"), ("merged_at", .str "2024-01-02T00:00:00Z"),
   ("additions", .num 10), ("deletions", .num 2), ("changed_files", .num 3),
   ("comments", .num 2), ("review_comments", .num 1), ("user", sampleUser)]

/-- An issue comment, a review or a review comment with a user. -/
def sampleRecord (id : Int) : JSObject :=
  [("id", .num id), ("user", sampleUser), ("created_at", .str "2024-01-01T10:00:00Z"),
   ("state", .str "APPROVED"), ("submitted_at", .str "2024-01-01T11:00:00Z"),
   ("body", .str "text")]

/-- A record whose account was deleted: `user` is `null`. -/
def ghostRecord (id : Int) : JSObject :=
  [("id", .num id), ("user", .null), ("created_at", .str "2024-01-01T12:00:00Z"),
   ("state", .str "COMMENTED"), ("submitted_at", .str "2024-01-01T13:00:00Z")]

/-- A timeline event. -/
def sampleEvent (event : String) : JSObject :=
  [("event", .str event), ("created_at", .str "2024-01-01T09:00:00Z"), ("id", .num 5)]

/-- An environment in which the aggregation goes through: a merged pull
request, two pages of comments, and one record without a user in each stream
that has users. -/
def sampleEnv : Env where
  getInput := fun name => .ok ("<" ++ name ++ ">")
  pull_request := samplePullRequest
  repo := .ok ("acme", "widgets")
  pullsGet := .ok sampleDetails
  listComments := .ok [[sampleRecord 1, ghostRecord 2], [sampleRecord 3]]
  listReviews := .ok [[ghostRecord 4]]
  listReviewComments := .ok [[], [ghostRecord 5, sampleRecord 6]]
  listEventsForTimeline := .ok [[sampleEvent "labeled"], [sampleEvent "merged"]]

/-- What the aggregation returns in the sample environment. -/
def samplePrepared : Prepared where
  apiEndpoint := "<api_endpoint>"
  apiAuthToken := "<teampulse_token>"
  payload := payloadOf "acme" "widgets"
    (.obj [("id", .num 1001), ("number", .num 7), ("title", .str "Add retry"),
      ("created_at", .str "2024-01-01T00:00:00Z"),
      ("merged_at", .str "2024-01-02T00:00:00Z"),
      ("additions", .num 10), ("deletions", .num 2), ("changed_files", .num 3),
      ("comments", .num 2), ("review_comments", .num 1),
      ("user", .obj [("id", .num 42), ("login", .str "octocat"),
        ("avatar_url", .str "https://example.test/a.png"), ("type", .str "User")])])
    [commentOf (sampleRecord 1), commentOf (ghostRecord 2), commentOf (sampleRecord 3)]
    [reviewOf (ghostRecord 4)]
    [reviewCommentOf (ghostRecord 5), reviewCommentOf (sampleRecord 6)]
    [timelineOf (sampleEvent "labeled"), timelineOf (sampleEvent "merged")]

/-- An HTTP error answer. -/
def httpError (status : Nat) : JSError :=
  { message := "Request failed with status code " ++ toString status,
    response := some { status := status } }

/-- A transport failure: no response. -/
def networkError : JSError :=
  { message := "Network Error", response := none }

/-- Attempts 1 to 4 fail (503, no response, 429, 500) and attempt 5 is answered
with 201. -/
def fifthTimeLucky : Nat → PostOutcome
  | 1 => .error (httpError 503)
  | 2 => .error networkError
  | 3 => .error (httpError 429)
  | 4 => .error (httpError 500)
  | _ => .ok { status := 201 }

/-- Attempt 1 is answered with 500 and every later attempt gets no response. -/
def answeredOnce : Nat → PostOutcome
  | 1 => .error (httpError 500)
  | _ => .error networkError

/-- Every attempt is answered with 404. -/
def alwaysNotFound : Nat → PostOutcome :=
  fun _ => .error (httpError 404)

/-- Every attempt is answered with 200. -/
def alwaysOk : Nat → PostOutcome :=
  fun _ => .ok { status := 200 }

/-- The sample environment with a reviews stream that fails (rate limit). -/
def rateLimitedEnv : Env :=
  { sampleEnv with listReviews := .error (httpError 403) }

/-- The sample environment with a summary record whose `user` is `null`. -/
def ghostAuthorEnv : Env :=
  { sampleEnv with pullsGet := .ok [("id", .num 1001), ("number", .num 7), ("user", .null)] }

/-- The sample environment on an event without a pull request (a push). -/
def pushEventEnv : Env :=
  { sampleEnv with pull_request := .undefined }

/-- The sample environment on a pull request closed without merging. -/
def unmergedEnv : Env :=
  { sampleEnv with pull_request := .obj [("number", .num 7), ("merged", .bool false)] }

/-- The error `core.getInput` throws for a required input that is not
supplied. -/
def inputNotSupplied (name : String) : JSError :=
  { message := "Input required and not supplied: " ++ name, response := none }

/-- The environment of a pull request closed without merging, in a workflow
that does not supply `teampulse_token`. -/
def missingTokenEnv : Env :=
  { unmergedEnv with
    getInput := fun name =>
      if name = "teampulse_token" then .error (inputNotSupplied name)
      else .ok ("<" ++ name ++ ">") }

/-! ## Sequencing lemmas -/

theorem bind_emit {β : Type} (e : Effect) (f : Unit → Act β) :
    (emit e >>= f) = { trace := e :: (f ()).trace, val := (f ()).val } := rfl

theorem bind_eval_ok {α β : Type} (a : α) (f : α → Act β) :
    (eval (.ok a) >>= f) = f a := rfl

theorem bind_eval_error {α β : Type} (e : JSError) (f : α → Act β) :
    (eval (.error e : Except JSError α) >>= f) = { trace := [], val := .error e } := rfl

theorem bind_call_ok {α β : Type} (c : Effect) (a : α) (f : α → Act β) :
    (call c (.ok a) >>= f) = { trace := c :: (f a).trace, val := (f a).val } := rfl

theorem bind_call_error {α β : Type} (c : Effect) (e : JSError) (f : α → Act β) :
    (call c (.error e : Except JSError α) >>= f) = { trace := [c], val := .error e } := rfl

theorem pure_act {α : Type} (a : α) : (pure a : Act α) = { trace := [], val := .ok a } := rfl

/-! ## Observations distribute over concatenation -/

theorem fetches_append (s t : List Effect) : fetches (s ++ t) = fetches s ++ fetches t := by
  induction s with
  | nil => rfl
  | cons e s ih => cases e <;> simp [fetches, ih]

theorem posts_append (s t : List Effect) : posts (s ++ t) = posts s + posts t := by
  induction s with
  | nil => simp [posts]
  | cons e s ih =>
    cases e <;> simp [posts, ih]
    omega

theorem sleeps_append (s t : List Effect) : sleeps (s ++ t) = sleeps s ++ sleeps t := by
  induction s with
  | nil => rfl
  | cons e s ih => cases e <;> simp [sleeps, ih]

theorem failures_append (s t : List Effect) :
    failures (s ++ t) = failures s ++ failures t := by
  induction s with
  | nil => rfl
  | cons e s ih => cases e <;> simp [failures, ih]

theorem httpStatus_append (s t : List Effect) :
    httpStatus (s ++ t) = httpStatus s ++ httpStatus t := by
  induction s with
  | nil => rfl
  | cons e s ih =>
    cases e <;> simp [httpStatus, ih]
    split <;> simp

theorem wire_append (s t : List Effect) : wire (s ++ t) = wire s ++ wire t := by
  induction s with
  | nil => rfl
  | cons e s ih => cases e <;> simp [wire, ih]

/-! ## One iteration of the submission loop -/

theorem submitLoop_done (post : Nat → PostOutcome) (ep tok : String) (p : JSValue)
    (m a d fs : Nat) (h : m < a) :
    submitLoop post ep tok p m a d fs = { trace := [], val := .ok fs } := by
  rw [submitLoop, if_neg (by omega)]
  rfl

theorem submitLoop_resolve (post : Nat → PostOutcome) (ep tok : String) (p : JSValue)
    (m a d fs : Nat) (h : a ≤ m) (res : AxiosResponse) (hp : post a = .ok res) :
    submitLoop post ep tok p m a d fs =
      { trace := [.info ("Attempt " ++ toString a ++ " to send data"),
                  .post ep p (headersOf tok),
                  .info ("Successfully sent PR data. HTTP status: " ++ toString res.status)],
        val := .ok res.status } := by
  rw [submitLoop, if_pos h, hp]
  rfl

theorem submitLoop_retry (post : Nat → PostOutcome) (ep tok : String) (p : JSValue)
    (m a d fs : Nat) (h : a < m) (error : JSError) (hp : post a = .error error) :
    submitLoop post ep tok p m a d fs =
      { trace := [.info ("Attempt " ++ toString a ++ " to send data"),
                  .post ep p (headersOf tok),
                  .warning ("Attempt " ++ toString a ++ " failed with status "
                    ++ toString (statusOrZero error) ++ ". Error: " ++ error.message),
                  .info ("Retrying in " ++ toString d ++ "ms..."),
                  .sleep d]
                 ++ (submitLoop post ep tok p m (a + 1) (d * 2) (statusOrZero error)).trace,
        val := (submitLoop post ep tok p m (a + 1) (d * 2) (statusOrZero error)).val } := by
  rw [submitLoop, if_pos (by omega), hp]
  simp only [tryCatch, bind_emit, bind_call_error, if_pos h]
  rfl

theorem submitLoop_last (post : Nat → PostOutcome) (ep tok : String) (p : JSValue)
    (m d fs : Nat) (error : JSError) (hp : post m = .error error) :
    submitLoop post ep tok p m m d fs =
      { trace := [.info ("Attempt " ++ toString m ++ " to send data"),
                  .post ep p (headersOf tok),
                  .warning ("Attempt " ++ toString m ++ " failed with status "
                    ++ toString (statusOrZero error) ++ ". Error: " ++ error.message),
                  .error ("All " ++ toString m ++ " attempts failed."),
                  .setFailed error.message],
        val := .ok (statusOrZero error) } := by
  rw [submitLoop, if_pos (le_refl m), hp]
  simp only [tryCatch, bind_emit, bind_call_error, if_neg (lt_irrefl m)]
  rw [submitLoop_done post ep tok p m (m + 1) d (statusOrZero error) (by omega)]
  rfl

/-! ## The submission loop as a whole -/

/-- The POSTs and sleeps of `n` rejected attempts followed by one more POST,
the first sleep lasting `d`. -/
theorem wire_backoff_step (d n : Nat) (rest : List Wire)
    (h : rest = (List.range n).flatMap (fun i => [Wire.post, Wire.sleep (d * 2 * 2 ^ i)])
      ++ [Wire.post]) :
    Wire.post :: Wire.sleep d :: rest =
      (List.range (n + 1)).flatMap (fun i => [Wire.post, Wire.sleep (d * 2 ^ i)])
        ++ [Wire.post] := by
  subst h
  simp [List.range_succ_eq_map, List.flatMap_map, Function.comp_def, pow_succ,
    Nat.mul_assoc, Nat.mul_comm 2]

theorem sleeps_backoff_step (d n : Nat) (rest : List Nat)
    (h : rest = (List.range n).map (fun i => d * 2 * 2 ^ i)) :
    d :: rest = (List.range (n + 1)).map (fun i => d * 2 ^ i) := by
  subst h
  simp [List.range_succ_eq_map, Function.comp_def, pow_succ, Nat.mul_assoc, Nat.mul_comm 2]

/-- Attempts `a` to `a + n - 1` are rejected and attempt `a + n` resolves, within
the ceiling: the loop stops there. -/
theorem submitLoop_success (post : Nat → PostOutcome) (ep tok : String) (p : JSValue)
    (m : Nat) (res : AxiosResponse) (n : Nat) :
    ∀ a d fs : Nat, a + n ≤ m →
      (∀ i, a ≤ i → i < a + n → ∃ e, post i = .error e) →
      post (a + n) = .ok res →
      (submitLoop post ep tok p m a d fs).val = .ok res.status ∧
      wire (submitLoop post ep tok p m a d fs).trace =
        (List.range n).flatMap (fun i => [Wire.post, Wire.sleep (d * 2 ^ i)]) ++ [Wire.post] ∧
      posts (submitLoop post ep tok p m a d fs).trace = n + 1 ∧
      sleeps (submitLoop post ep tok p m a d fs).trace =
        (List.range n).map (fun i => d * 2 ^ i) ∧
      failures (submitLoop post ep tok p m a d fs).trace = [] ∧
      fetches (submitLoop post ep tok p m a d fs).trace = [] ∧
      httpStatus (submitLoop post ep tok p m a d fs).trace = [] := by
  induction n with
  | zero =>
    intro a d fs ham _ hres
    rw [submitLoop_resolve post ep tok p m a d fs ham res hres]
    simp [wire, posts, sleeps, failures, fetches, httpStatus]
  | succ n ih =>
    intro a d fs ham hrej hres
    obtain ⟨e, he⟩ := hrej a (le_refl a) (by omega)
    have hnext := ih (a + 1) (d * 2) (statusOrZero e) (by omega)
      (fun i h1 h2 => hrej i (by omega) (by omega))
      (by rw [← hres]; congr 1; omega)
    obtain ⟨hv, hw, hp, hs, hf, hfe, hh⟩ := hnext
    rw [submitLoop_retry post ep tok p m a d fs (by omega) e he]
    refine ⟨hv, ?_, ?_, ?_, ?_, ?_, ?_⟩
    · simp only [List.cons_append, List.nil_append, wire]
      exact wire_backoff_step d n _ hw
    · rw [posts_append, hp]
      simp only [posts]
      omega
    · simp only [List.cons_append, List.nil_append, sleeps]
      exact sleeps_backoff_step d n _ hs
    · simpa only [List.cons_append, List.nil_append, failures] using hf
    · simpa only [List.cons_append, List.nil_append, fetches] using hfe
    · simpa only [List.cons_append, List.nil_append, httpStatus] using hh

/-- Attempts `a` to `a + n - 1` are rejected and so is attempt `a + n`, the last
one the ceiling allows: the loop marks the run failed and leaves. -/
theorem submitLoop_exhausted (post : Nat → PostOutcome) (ep tok : String) (p : JSValue)
    (m : Nat) (last : JSError) (n : Nat) :
    ∀ a d fs : Nat, a + n = m →
      (∀ i, a ≤ i → i < a + n → ∃ e, post i = .error e) →
      post m = .error last →
      (submitLoop post ep tok p m a d fs).val = .ok (statusOrZero last) ∧
      wire (submitLoop post ep tok p m a d fs).trace =
        (List.range n).flatMap (fun i => [Wire.post, Wire.sleep (d * 2 ^ i)]) ++ [Wire.post] ∧
      posts (submitLoop post ep tok p m a d fs).trace = n + 1 ∧
      sleeps (submitLoop post ep tok p m a d fs).trace =
        (List.range n).map (fun i => d * 2 ^ i) ∧
      failures (submitLoop post ep tok p m a d fs).trace = [last.message] ∧
      fetches (submitLoop post ep tok p m a d fs).trace = [] ∧
      httpStatus (submitLoop post ep tok p m a d fs).trace = [] := by
  induction n with
  | zero =>
    intro a d fs ham _ hlast
    have : a = m := by omega
    subst this
    rw [submitLoop_last post ep tok p a d fs last hlast]
    simp [wire, posts, sleeps, failures, fetches, httpStatus]
  | succ n ih =>
    intro a d fs ham hrej hlast
    obtain ⟨e, he⟩ := hrej a (le_refl a) (by omega)
    have hnext := ih (a + 1) (d * 2) (statusOrZero e) (by omega)
      (fun i h1 h2 => hrej i (by omega) (by omega)) hlast
    obtain ⟨hv, hw, hp, hs, hf, hfe, hh⟩ := hnext
    rw [submitLoop_retry post ep tok p m a d fs (by omega) e he]
    refine ⟨hv, ?_, ?_, ?_, ?_, ?_, ?_⟩
    · simp only [List.cons_append, List.nil_append, wire]
      exact wire_backoff_step d n _ hw
    · rw [posts_append, hp]
      simp only [posts]
      omega
    · simp only [List.cons_append, List.nil_append, sleeps]
      exact sleeps_backoff_step d n _ hs
    · simpa only [List.cons_append, List.nil_append, failures] using hf
    · simpa only [List.cons_append, List.nil_append, fetches] using hfe
    · simpa only [List.cons_append, List.nil_append, httpStatus] using hh

theorem bodies_append (s t : List Effect) : bodies (s ++ t) = bodies s ++ bodies t := by
  induction s with
  | nil => rfl
  | cons e s ih => cases e <;> simp [bodies, ih]

/-! ## How the collection ends -/

/-- The collection stops at the first fetch that fails, or at the summary
record without a user, and otherwise returns the payload. -/
theorem collect_cases (env : Env) (owner repo : String) (n : JSValue) (ep tok : String) :
    (∃ e, env.pullsGet = .error e ∧
      collect env owner repo n ep tok =
        { trace := (allFetches owner repo n).take 1, val := .error e }) ∨
    (∃ prd e, env.pullsGet = .ok prd ∧ pullRequestDetails prd = .error e ∧
      collect env owner repo n ep tok =
        { trace := (allFetches owner repo n).take 1, val := .error e }) ∨
    (∃ prd det e, env.pullsGet = .ok prd ∧ pullRequestDetails prd = .ok det ∧
      env.listComments = .error e ∧
      collect env owner repo n ep tok =
        { trace := (allFetches owner repo n).take 2, val := .error e }) ∨
    (∃ prd det c e, env.pullsGet = .ok prd ∧ pullRequestDetails prd = .ok det ∧
      env.listComments = .ok c ∧ env.listReviews = .error e ∧
      collect env owner repo n ep tok =
        { trace := (allFetches owner repo n).take 3, val := .error e }) ∨
    (∃ prd det c r e, env.pullsGet = .ok prd ∧ pullRequestDetails prd = .ok det ∧
      env.listComments = .ok c ∧ env.listReviews = .ok r ∧
      env.listReviewComments = .error e ∧
      collect env owner repo n ep tok =
        { trace := (allFetches owner repo n).take 4, val := .error e }) ∨
    (∃ prd det c r rc e, env.pullsGet = .ok prd ∧ pullRequestDetails prd = .ok det ∧
      env.listComments = .ok c ∧ env.listReviews = .ok r ∧
      env.listReviewComments = .ok rc ∧ env.listEventsForTimeline = .error e ∧
      collect env owner repo n ep tok =
        { trace := allFetches owner repo n, val := .error e }) ∨
    (∃ prd det c r rc tl, env.pullsGet = .ok prd ∧ pullRequestDetails prd = .ok det ∧
      env.listComments = .ok c ∧ env.listReviews = .ok r ∧
      env.listReviewComments = .ok rc ∧ env.listEventsForTimeline = .ok tl ∧
      collect env owner repo n ep tok =
        { trace := allFetches owner repo n,
          val := .ok (some {
            apiEndpoint := ep
            apiAuthToken := tok
            payload := payloadOf owner repo det (c.flatten.map commentOf)
              (r.flatten.map reviewOf) (rc.flatten.map reviewCommentOf)
              (tl.flatten.map timelineOf) }) }) := by
  unfold collect
  cases h1 : env.pullsGet with
  | error e => exact Or.inl ⟨e, rfl, rfl⟩
  | ok prd =>
  right
  cases h2 : pullRequestDetails prd with
  | error e =>
    refine Or.inl ⟨prd, e, rfl, h2, ?_⟩
    simp [h2, bind_call_ok, bind_eval_error, allFetches]
  | ok det =>
  right
  cases h3 : env.listComments with
  | error e =>
    refine Or.inl ⟨prd, det, e, rfl, h2, rfl, ?_⟩
    simp [h2, bind_call_ok, bind_eval_ok, paginate, Except.map, bind_call_error, allFetches]
  | ok c =>
  right
  cases h4 : env.listReviews with
  | error e =>
    refine Or.inl ⟨prd, det, c, e, rfl, h2, rfl, rfl, ?_⟩
    simp [h2, bind_call_ok, bind_eval_ok, paginate, Except.map, bind_call_error, allFetches]
  | ok r =>
  right
  cases h5 : env.listReviewComments with
  | error e =>
    refine Or.inl ⟨prd, det, c, r, e, rfl, h2, rfl, rfl, rfl, ?_⟩
    simp [h2, bind_call_ok, bind_eval_ok, paginate, Except.map, bind_call_error, allFetches]
  | ok rc =>
  right
  cases h6 : env.listEventsForTimeline with
  | error e =>
    refine Or.inl ⟨prd, det, c, r, rc, e, rfl, h2, rfl, rfl, rfl, rfl, ?_⟩
    simp [h2, bind_call_ok, bind_eval_ok, paginate, Except.map, bind_call_error, allFetches]
  | ok tl =>
    refine Or.inr ⟨prd, det, c, r, rc, tl, rfl, h2, rfl, rfl, rfl, rfl, ?_⟩
    simp [h2, bind_call_ok, bind_eval_ok, paginate, Except.map, pure_act, allFetches]

/-! ## How the aggregation ends -/

/-- The aggregation throws before any call, or returns early on one of the two
context checks, or goes on to the collection. -/
theorem aggregate_cases (env : Env) :
    (∃ e, aggregate env = { trace := [], val := .error e }) ∨
    (env.pull_request.truthy = false ∧
      aggregate env =
        { trace := [.setFailed
            "This action must be run in the context of a Pull Request event."],
          val := .ok none }) ∨
    (∃ merged, env.pull_request.truthy = true ∧
      env.pull_request.get "merged" = .ok merged ∧ merged.truthy = false ∧
      (∃ gt, env.getInput "github_token" = .ok gt) ∧
      aggregate env =
        { trace := [.info "PR is not merged. Skipping action."], val := .ok none }) ∨
    (∃ ep tok merged owner repo n,
      env.getInput "api_endpoint" = .ok ep ∧
      env.getInput "teampulse_token" = .ok tok ∧
      env.pull_request.truthy = true ∧
      env.pull_request.get "merged" = .ok merged ∧ merged.truthy = true ∧
      env.repo = .ok (owner, repo) ∧
      env.pull_request.get "number" = .ok n ∧
      aggregate env = collect env owner repo n ep tok) := by
  unfold aggregate
  cases h1 : env.getInput "github_token" with
  | error e => exact Or.inl ⟨e, rfl⟩
  | ok gt =>
  cases h2 : env.getInput "api_endpoint" with
  | error e => exact Or.inl ⟨e, rfl⟩
  | ok ep =>
  cases h3 : env.getInput "teampulse_token" with
  | error e => exact Or.inl ⟨e, rfl⟩
  | ok tok =>
  cases h4 : env.pull_request.truthy with
  | false => exact Or.inr (Or.inl ⟨rfl, rfl⟩)
  | true =>
  cases h5 : env.pull_request.get "merged" with
  | error e =>
    refine Or.inl ⟨e, ?_⟩
    simp [bind_eval_ok, h5, bind_eval_error]
  | ok merged =>
  cases h6 : merged.truthy with
  | false =>
    refine Or.inr (Or.inr (Or.inl ⟨merged, rfl, rfl, h6, ⟨gt, rfl⟩, ?_⟩))
    simp [bind_eval_ok, h5, h6, bind_emit, pure_act]
  | true =>
  cases h7 : env.repo with
  | error e =>
    refine Or.inl ⟨e, ?_⟩
    simp [bind_eval_ok, h5, h6, bind_eval_error]
  | ok pair =>
  obtain ⟨owner, repo⟩ := pair
  cases h8 : env.pull_request.get "number" with
  | error e =>
    refine Or.inl ⟨e, ?_⟩
    simp [bind_eval_ok, h5, h6, h8, bind_eval_error]
  | ok n =>
    refine Or.inr (Or.inr (Or.inr ⟨ep, tok, merged, owner, repo, n, rfl, rfl, rfl, rfl, h6,
      rfl, rfl, ?_⟩))
    simp [bind_eval_ok, h5, h6, h8]

/-! ## The loop under any outcomes -/

/-- The loop makes no fetch, sets no output, and every POST carries the
payload. -/
theorem submitLoop_quiet (post : Nat → PostOutcome) (ep tok : String) (p : JSValue)
    (m : Nat) (n : Nat) :
    ∀ a d fs : Nat, m + 1 - a = n →
      fetches (submitLoop post ep tok p m a d fs).trace = [] ∧
      httpStatus (submitLoop post ep tok p m a d fs).trace = [] ∧
      ∀ b ∈ bodies (submitLoop post ep tok p m a d fs).trace, b = p := by
  induction n with
  | zero =>
    intro a d fs h
    rw [submitLoop_done post ep tok p m a d fs (by omega)]
    simp [fetches, httpStatus, bodies]
  | succ n ih =>
    intro a d fs h
    cases hp : post a with
    | ok res =>
      rw [submitLoop_resolve post ep tok p m a d fs (by omega) res hp]
      simp [fetches, httpStatus, bodies]
    | error e =>
      by_cases hlt : a < m
      · obtain ⟨h1, h2, h3⟩ := ih (a + 1) (d * 2) (statusOrZero e) (by omega)
        rw [submitLoop_retry post ep tok p m a d fs hlt e hp]
        simp only [fetches_append, httpStatus_append, bodies_append, h1, h2]
        refine ⟨by simp [fetches], by simp [httpStatus], ?_⟩
        intro b hb
        rcases List.mem_append.mp hb with hb | hb
        · simpa [bodies] using hb
        · exact h3 b hb
      · have : a = m := by omega
        subst this
        rw [submitLoop_last post ep tok p a d fs e hp]
        simp [fetches, httpStatus, bodies]

/-- Entered within the ceiling, the loop makes at least one POST, stays within
the ceiling, and leaves with the status of the last attempt it made; every
attempt before the last was rejected, and the last one resolved or was the
one at the ceiling. -/
theorem submitLoop_status (post : Nat → PostOutcome) (ep tok : String) (p : JSValue)
    (m : Nat) (n : Nat) :
    ∀ a d fs : Nat, m - a = n → a ≤ m →
      1 ≤ posts (submitLoop post ep tok p m a d fs).trace ∧
      a + posts (submitLoop post ep tok p m a d fs).trace - 1 ≤ m ∧
      (submitLoop post ep tok p m a d fs).val =
        .ok (attemptStatus
          (post (a + posts (submitLoop post ep tok p m a d fs).trace - 1))) ∧
      (∀ i, a ≤ i → i < a + posts (submitLoop post ep tok p m a d fs).trace - 1 →
        (post i).isOk = false) ∧
      ((post (a + posts (submitLoop post ep tok p m a d fs).trace - 1)).isOk = true ∨
        a + posts (submitLoop post ep tok p m a d fs).trace - 1 = m) := by
  induction n with
  | zero =>
    intro a d fs h ham
    have : a = m := by omega
    subst this
    cases hp : post a with
    | ok res =>
      rw [submitLoop_resolve post ep tok p a a d fs (le_refl a) res hp]
      refine ⟨by simp [posts], by simp [posts], by simp [posts, hp, attemptStatus], ?_, ?_⟩
      · intro i h1 h2
        simp [posts] at h2
        omega
      · simp [posts]
    | error e =>
      rw [submitLoop_last post ep tok p a d fs e hp]
      refine ⟨by simp [posts], by simp [posts], by simp [posts, hp, attemptStatus], ?_, ?_⟩
      · intro i h1 h2
        simp [posts] at h2
        omega
      · simp [posts]
  | succ n ih =>
    intro a d fs h ham
    cases hp : post a with
    | ok res =>
      rw [submitLoop_resolve post ep tok p m a d fs ham res hp]
      refine ⟨by simp [posts], by simp [posts, ham], by simp [posts, hp, attemptStatus],
        ?_, ?_⟩
      · intro i h1 h2
        simp [posts] at h2
        omega
      · simp [posts, hp, Except.isOk, Except.toBool]
    | error e =>
      obtain ⟨h1, h2, h3, h4, h5⟩ :=
        ih (a + 1) (d * 2) (statusOrZero e) (by omega) (by omega)
      rw [submitLoop_retry post ep tok p m a d fs (by omega) e hp]
      have hposts : posts ([Effect.info ("Attempt " ++ toString a ++ " to send data"),
          Effect.post ep p (headersOf tok),
          Effect.warning ("Attempt " ++ toString a ++ " failed with status "
            ++ toString (statusOrZero e) ++ ". Error: " ++ e.message),
          Effect.info ("Retrying in " ++ toString d ++ "ms..."),
          Effect.sleep d]
          ++ (submitLoop post ep tok p m (a + 1) (d * 2) (statusOrZero e)).trace) =
          posts (submitLoop post ep tok p m (a + 1) (d * 2) (statusOrZero e)).trace + 1 := by
        rw [posts_append]
        simp only [posts]
        omega
      have hk : a + (posts (submitLoop post ep tok p m (a + 1) (d * 2)
          (statusOrZero e)).trace + 1) - 1 =
          a + 1 + posts (submitLoop post ep tok p m (a + 1) (d * 2)
            (statusOrZero e)).trace - 1 := by
        omega
      simp only [hposts, hk]
      refine ⟨by omega, h2, h3, ?_, h5⟩
      intro i hi1 hi2
      by_cases hia : i = a
      · subst hia
        simp [hp, Except.isOk, Except.toBool]
      · exact h4 i (by omega) hi2

/-- Two outcome sequences with the same pattern of resolved and rejected
attempts drive the loop through the same POSTs and sleeps, and to the same
verdict. -/
theorem submitLoop_pattern (post post2 : Nat → PostOutcome) (ep tok : String) (p : JSValue)
    (m : Nat) (hsame : ∀ i, (post i).isOk = (post2 i).isOk) (n : Nat) :
    ∀ a d fs fs2 : Nat, m + 1 - a = n →
      posts (submitLoop post ep tok p m a d fs).trace =
        posts (submitLoop post2 ep tok p m a d fs2).trace ∧
      sleeps (submitLoop post ep tok p m a d fs).trace =
        sleeps (submitLoop post2 ep tok p m a d fs2).trace ∧
      (failures (submitLoop post ep tok p m a d fs).trace = [] ↔
        failures (submitLoop post2 ep tok p m a d fs2).trace = []) := by
  induction n with
  | zero =>
    intro a d fs fs2 h
    rw [submitLoop_done post ep tok p m a d fs (by omega),
      submitLoop_done post2 ep tok p m a d fs2 (by omega)]
    simp
  | succ n ih =>
    intro a d fs fs2 h
    have hs := hsame a
    cases hp : post a with
    | ok res =>
      cases hp2 : post2 a with
      | error e2 => simp [hp, hp2, Except.isOk, Except.toBool] at hs
      | ok res2 =>
        rw [submitLoop_resolve post ep tok p m a d fs (by omega) res hp,
          submitLoop_resolve post2 ep tok p m a d fs2 (by omega) res2 hp2]
        simp [posts, sleeps, failures]
    | error e =>
      cases hp2 : post2 a with
      | ok res2 => simp [hp, hp2, Except.isOk, Except.toBool] at hs
      | error e2 =>
        by_cases hlt : a < m
        · obtain ⟨h1, h2, h3⟩ :=
            ih (a + 1) (d * 2) (statusOrZero e) (statusOrZero e2) (by omega)
          rw [submitLoop_retry post ep tok p m a d fs hlt e hp,
            submitLoop_retry post2 ep tok p m a d fs2 hlt e2 hp2]
          simp only [posts_append, sleeps_append, failures_append, h1, h2]
          refine ⟨by simp [posts], by simp [sleeps], ?_⟩
          simpa [failures] using h3
        · have : a = m := by omega
          subst this
          rw [submitLoop_last post ep tok p a d fs e hp,
            submitLoop_last post2 ep tok p a d fs2 e2 hp2]
          simp [posts, sleeps, failures]

/-! ## The run in terms of its aggregation -/

theorem bind_of_val_ok {α β : Type} (x : Act α) (a : α) (f : α → Act β)
    (h : x.val = .ok a) :
    (x >>= f) = { trace := x.trace ++ (f a).trace, val := (f a).val } := by
  show Act.bind x f = _
  unfold Act.bind
  rw [h]

theorem bind_of_val_error {α β : Type} (x : Act α) (e : JSError) (f : α → Act β)
    (h : x.val = .error e) :
    (x >>= f) = { trace := x.trace, val := .error e } := by
  show Act.bind x f = _
  unfold Act.bind
  rw [h]

/-- The aggregation threw: the outer `catch` marks the run failed. -/
theorem run_of_error (env : Env) (post : Nat → PostOutcome) (e : JSError)
    (h : (aggregate env).val = .error e) :
    (run env post).trace =
      (aggregate env).trace ++ [.setFailed ("Action failed: " ++ e.message)] := by
  unfold run
  rw [bind_of_val_error _ e _ h]
  rfl

/-- The aggregation returned early: the run ends there. -/
theorem run_of_none (env : Env) (post : Nat → PostOutcome)
    (h : (aggregate env).val = .ok none) :
    (run env post).trace = (aggregate env).trace := by
  unfold run
  rw [bind_of_val_ok _ none _ h]
  simp [tryCatch, pure_act]

/-- The aggregation returned a payload: the run goes through the loop and sets
the output. -/
theorem run_of_some (env : Env) (post : Nat → PostOutcome) (x : Prepared)
    (h : (aggregate env).val = .ok (some x)) :
    (run env post).trace =
      (aggregate env).trace ++
        ((submitLoop post x.apiEndpoint x.apiAuthToken x.payload 5 1 5000 0).trace ++
          [.setOutput "http_status" (attemptStatus (post
            (posts (submitLoop post x.apiEndpoint x.apiAuthToken x.payload 5 1 5000 0).trace)))])
    := by
  obtain ⟨_, _, hv, _, _⟩ := submitLoop_status post x.apiEndpoint x.apiAuthToken x.payload
    5 4 1 5000 0 (by omega) (by omega)
  unfold run
  rw [bind_of_val_ok _ (some x) _ h]
  simp only [submit]
  rw [bind_of_val_ok _ _ _ hv]
  simp [tryCatch, emit]

/-- An aggregation that returned a payload made the five fetches and nothing
else, and the payload is the projection of what they returned. -/
theorem aggregate_some (env : Env) (x : Prepared)
    (h : (aggregate env).val = .ok (some x)) :
    ∃ owner repo n det c r rc tl,
      env.listComments = .ok c ∧ env.listReviews = .ok r ∧
      env.listReviewComments = .ok rc ∧ env.listEventsForTimeline = .ok tl ∧
      (aggregate env).trace = allFetches owner repo n ∧
      x.payload = payloadOf owner repo det (c.flatten.map commentOf)
        (r.flatten.map reviewOf) (rc.flatten.map reviewCommentOf)
        (tl.flatten.map timelineOf) := by
  rcases aggregate_cases env with ⟨e, he⟩ | ⟨_, he⟩ | ⟨_, _, _, _, _, he⟩ |
    ⟨ep, tok, merged, owner, repo, n, _, _, _, _, _, _, _, he⟩
  · rw [he] at h; simp at h
  · rw [he] at h; simp at h
  · rw [he] at h; simp at h
  · rw [he] at h ⊢
    rcases collect_cases env owner repo n ep tok with ⟨e, _, hc⟩ | ⟨_, e, _, _, hc⟩ |
      ⟨_, _, e, _, _, _, hc⟩ | ⟨_, _, _, e, _, _, _, _, hc⟩ |
      ⟨_, _, _, _, e, _, _, _, _, _, hc⟩ | ⟨_, _, _, _, _, e, _, _, _, _, _, _, hc⟩ |
      ⟨prd, det, c, r, rc, tl, _, _, h3, h4, h5, h6, hc⟩
    · rw [hc] at h; simp at h
    · rw [hc] at h; simp at h
    · rw [hc] at h; simp at h
    · rw [hc] at h; simp at h
    · rw [hc] at h; simp at h
    · rw [hc] at h; simp at h
    · rw [hc] at h ⊢
      simp only [Except.ok.injEq, Option.some.injEq] at h
      exact ⟨owner, repo, n, det, c, r, rc, tl, h3, h4, h5, h6, rfl, by rw [← h]⟩

theorem allFetches_quiet (owner repo : String) (n : JSValue) :
    posts (allFetches owner repo n) = 0 ∧ sleeps (allFetches owner repo n) = [] ∧
    wire (allFetches owner repo n) = [] ∧ failures (allFetches owner repo n) = [] ∧
    httpStatus (allFetches owner repo n) = [] ∧ bodies (allFetches owner repo n) = [] ∧
    fetches (allFetches owner repo n) = fetchOrder :=
  ⟨rfl, rfl, rfl, rfl, rfl, rfl, rfl⟩

theorem aggregate_sampleEnv : (aggregate sampleEnv).val = .ok (some samplePrepared) := rfl

/-! ## The claims about the submission loop -/

/-- C1: when the run reaches the submission loop, attempts 1 to k-1 are
rejected (with any status or none) and attempt k, 1 ≤ k ≤ 5, resolves with
status s, the run makes exactly k POSTs and k-1 sleeps, the i-th sleep lasting
5000 * 2^(i-1) ms, POSTs and sleeps alternate and end with the k-th POST
(nothing follows the success), the run is not marked failed, and the
`http_status` output is s. -/
theorem C1_success_at_attempt_k (env : Env) (post : Nat → PostOutcome) (x : Prepared)
    (k s : Nat) (hagg : (aggregate env).val = .ok (some x))
    (hk1 : 1 ≤ k) (hk5 : k ≤ 5)
    (hfail : ∀ i, 1 ≤ i → i < k → ∃ e, post i = .error e)
    (hok : post k = .ok { status := s }) :
    posts (run env post).trace = k ∧
    sleeps (run env post).trace = (List.range (k - 1)).map (fun i => 5000 * 2 ^ i) ∧
    wire (run env post).trace =
      (List.range (k - 1)).flatMap (fun i => [Wire.post, Wire.sleep (5000 * 2 ^ i)])
        ++ [Wire.post] ∧
    failures (run env post).trace = [] ∧
    httpStatus (run env post).trace = [s] := by
  obtain ⟨owner, repo, n, _, _, _, _, _, _, _, _, _, htrace, _⟩ := aggregate_some env x hagg
  obtain ⟨q1, q2, q3, q4, q5, _, _⟩ := allFetches_quiet owner repo n
  obtain ⟨_, hw, hp, hs, hf, _, hh⟩ :=
    submitLoop_success post x.apiEndpoint x.apiAuthToken x.payload 5 { status := s } (k - 1)
      1 5000 0 (by omega) (fun i h1 h2 => hfail i h1 (by omega))
      (by rw [← hok]; congr 1; omega)
  have hpost : post (k - 1 + 1) = .ok { status := s } := by
    rw [← hok]; congr 1; omega
  rw [run_of_some env post x hagg, htrace]
  simp only [posts_append, sleeps_append, wire_append, failures_append, httpStatus_append,
    q1, q2, q3, q4, q5, hw, hp, hs, hf, hh, hpost, attemptStatus]
  refine ⟨?_, ?_, ?_, ?_, ?_⟩
  · simp only [posts]; omega
  · simp [sleeps]
  · simp [wire]
  · simp [failures]
  · simp [httpStatus]

/-- Witness of C1 at k = 5: four rejected attempts, then a 201. -/
theorem C1_success_at_attempt_k_witness :
    posts (run sampleEnv fifthTimeLucky).trace = 5 ∧
    sleeps (run sampleEnv fifthTimeLucky).trace = [5000, 10000, 20000, 40000] ∧
    wire (run sampleEnv fifthTimeLucky).trace =
      [.post, .sleep 5000, .post, .sleep 10000, .post, .sleep 20000, .post, .sleep 40000,
       .post] ∧
    failures (run sampleEnv fifthTimeLucky).trace = [] ∧
    httpStatus (run sampleEnv fifthTimeLucky).trace = [201] :=
  C1_success_at_attempt_k sampleEnv fifthTimeLucky samplePrepared 5 201 aggregate_sampleEnv
    (by decide) (by decide)
    (fun i h1 h5 => by
      have : i = 1 ∨ i = 2 ∨ i = 3 ∨ i = 4 := by omega
      rcases this with h | h | h | h <;> subst h <;> exact ⟨_, rfl⟩)
    rfl

/-- C2: when the run reaches the submission loop and the first five attempts
are all rejected, the run makes exactly 5 POSTs and 4 sleeps (5000, 10000,
20000, 40000 ms), none after the fifth POST, it is marked failed with the
message of the fifth error, and the `http_status` output is the status of the
fifth error's response, or 0 if that error carries no response. -/
theorem C2_retry_exhaustion (env : Env) (post : Nat → PostOutcome) (x : Prepared)
    (last : JSError) (hagg : (aggregate env).val = .ok (some x))
    (hfail : ∀ i, 1 ≤ i → i < 5 → ∃ e, post i = .error e)
    (hlast : post 5 = .error last) :
    posts (run env post).trace = 5 ∧
    sleeps (run env post).trace = [5000, 10000, 20000, 40000] ∧
    wire (run env post).trace =
      [.post, .sleep 5000, .post, .sleep 10000, .post, .sleep 20000, .post, .sleep 40000,
       .post] ∧
    failures (run env post).trace = [last.message] ∧
    httpStatus (run env post).trace =
      [match last.response with
       | some response => response.status
       | none => 0] := by
  obtain ⟨owner, repo, n, _, _, _, _, _, _, _, _, _, htrace, _⟩ := aggregate_some env x hagg
  obtain ⟨q1, q2, q3, q4, q5, _, _⟩ := allFetches_quiet owner repo n
  obtain ⟨_, hw, hp, hs, hf, _, hh⟩ :=
    submitLoop_exhausted post x.apiEndpoint x.apiAuthToken x.payload 5 last 4
      1 5000 0 (by omega) (fun i h1 h2 => hfail i h1 (by omega)) hlast
  have hstatus : statusOrZero last =
      (match last.response with
       | some response => response.status
       | none => 0) := by
    unfold statusOrZero
    cases last.response with
    | none => rfl
    | some response =>
      by_cases h0 : response.status = 0 <;> simp [h0]
  rw [run_of_some env post x hagg, htrace]
  simp only [posts_append, sleeps_append, wire_append, failures_append, httpStatus_append,
    q1, q2, q3, q4, q5, hw, hp, hs, hf, hh, hlast, attemptStatus, hstatus]
  refine ⟨?_, ?_, ?_, ?_, ?_⟩
  · simp [posts]
  · simp [sleeps]; decide
  · simp [wire]; decide
  · simp [failures]
  · simp [httpStatus]

/-- Witness of C2: a 500 at attempt 1, then no response four times. -/
theorem C2_retry_exhaustion_witness :
    posts (run sampleEnv answeredOnce).trace = 5 ∧
    sleeps (run sampleEnv answeredOnce).trace = [5000, 10000, 20000, 40000] ∧
    wire (run sampleEnv answeredOnce).trace =
      [.post, .sleep 5000, .post, .sleep 10000, .post, .sleep 20000, .post, .sleep 40000,
       .post] ∧
    failures (run sampleEnv answeredOnce).trace = ["Network Error"] ∧
    httpStatus (run sampleEnv answeredOnce).trace = [0] :=
  C2_retry_exhaustion sampleEnv answeredOnce samplePrepared networkError aggregate_sampleEnv
    (fun i h1 h5 => by
      have : i = 1 ∨ i = 2 ∨ i = 3 ∨ i = 4 := by omega
      rcases this with h | h | h | h <;> subst h <;> exact ⟨_, rfl⟩)
    rfl

/-- C4, counterexample: attempt 1 is answered with 500 and attempts 2 to 5 get
no response. The most recent attempt that received a response carried 500, and
an attempt did receive a response, yet the `http_status` output is 0. -/
theorem C4_counterexample :
    httpStatus (run sampleEnv answeredOnce).trace = [0] ∧
    specObservedStatus (answeredOnce 1) = some 500 ∧
    specLastObservedStatus ((List.range 5).map (fun i => answeredOnce (i + 1))) = 500 := by
  refine ⟨?_, rfl, rfl⟩
  obtain ⟨owner, repo, n, _, _, _, _, _, _, _, _, _, htrace, _⟩ :=
    aggregate_some sampleEnv samplePrepared aggregate_sampleEnv
  obtain ⟨_, _, _, _, q5, _, _⟩ := allFetches_quiet owner repo n
  obtain ⟨_, _, hp, _, _, _, hh⟩ :=
    submitLoop_exhausted answeredOnce samplePrepared.apiEndpoint samplePrepared.apiAuthToken
      samplePrepared.payload 5 networkError 4 1 5000 0 (by omega)
      (fun i h1 h5 => by
        have : i = 1 ∨ i = 2 ∨ i = 3 ∨ i = 4 := by omega
        rcases this with h | h | h | h <;> subst h <;> exact ⟨_, rfl⟩)
      rfl
  rw [run_of_some sampleEnv answeredOnce samplePrepared aggregate_sampleEnv, htrace]
  simp only [httpStatus_append, q5, hh, hp]
  rfl

/-- C4, amended: when the run reaches the submission loop, the `http_status`
output is the status of the last attempt the run made, whatever earlier
attempts received: the response status if that attempt resolved, and
`error.response?.status || 0` if it was rejected, which is 0 when that error
carries no response. The run makes between 1 and 5 attempts; every attempt
before the last was rejected, and the last one resolved or was the fifth. -/
theorem C4_status_of_last_attempt (env : Env) (post : Nat → PostOutcome) (x : Prepared)
    (hagg : (aggregate env).val = .ok (some x)) :
    1 ≤ posts (run env post).trace ∧ posts (run env post).trace ≤ 5 ∧
    (∀ i, 1 ≤ i → i < posts (run env post).trace → (post i).isOk = false) ∧
    ((post (posts (run env post).trace)).isOk = true ∨ posts (run env post).trace = 5) ∧
    httpStatus (run env post).trace =
      [attemptStatus (post (posts (run env post).trace))] := by
  obtain ⟨owner, repo, n, _, _, _, _, _, _, _, _, _, htrace, _⟩ := aggregate_some env x hagg
  obtain ⟨q1, _, _, _, q5, _, _⟩ := allFetches_quiet owner repo n
  obtain ⟨h1, h2, _, h4, h5⟩ := submitLoop_status post x.apiEndpoint x.apiAuthToken
    x.payload 5 4 1 5000 0 (by omega) (by omega)
  obtain ⟨_, hh, _⟩ := submitLoop_quiet post x.apiEndpoint x.apiAuthToken x.payload 5 5
    1 5000 0 (by omega)
  have hk : 1 + posts (submitLoop post x.apiEndpoint x.apiAuthToken x.payload 5 1 5000
      0).trace - 1 =
      posts (submitLoop post x.apiEndpoint x.apiAuthToken x.payload 5 1 5000 0).trace := by
    omega
  rw [hk] at h2 h4 h5
  rw [run_of_some env post x hagg, htrace]
  simp only [posts_append, httpStatus_append, q1, q5, hh]
  simp only [posts, httpStatus, if_true, List.nil_append, Nat.zero_add, Nat.add_zero]
  exact ⟨h1, h2, h4, h5, trivial⟩

/-- Witness of C4, amended: after a 500 and four attempts without a response
the output is 0, the status of attempt 5. -/
theorem C4_status_of_last_attempt_witness :
    1 ≤ posts (run sampleEnv answeredOnce).trace ∧
    posts (run sampleEnv answeredOnce).trace ≤ 5 ∧
    (∀ i, 1 ≤ i → i < posts (run sampleEnv answeredOnce).trace →
      (answeredOnce i).isOk = false) ∧
    ((answeredOnce (posts (run sampleEnv answeredOnce).trace)).isOk = true ∨
      posts (run sampleEnv answeredOnce).trace = 5) ∧
    httpStatus (run sampleEnv answeredOnce).trace =
      [attemptStatus (answeredOnce (posts (run sampleEnv answeredOnce).trace))] :=
  C4_status_of_last_attempt sampleEnv answeredOnce samplePrepared aggregate_sampleEnv

/-- C6: two sequences of POST outcomes with the same pattern of resolved and
rejected attempts (they may differ in the statuses and messages of the
rejected attempts) give runs with the same number of POSTs, the same sequence
of sleeps, and the same verdict on whether the run is marked failed. -/
theorem C6_retry_ignores_status (env : Env) (post post2 : Nat → PostOutcome)
    (hsame : ∀ i, (post i).isOk = (post2 i).isOk) :
    posts (run env post).trace = posts (run env post2).trace ∧
    sleeps (run env post).trace = sleeps (run env post2).trace ∧
    (failures (run env post).trace = [] ↔ failures (run env post2).trace = []) := by
  cases hagg : (aggregate env).val with
  | error e =>
    rw [run_of_error env post e hagg, run_of_error env post2 e hagg]
    exact ⟨rfl, rfl, Iff.rfl⟩
  | ok prepared =>
    cases prepared with
    | none =>
      rw [run_of_none env post hagg, run_of_none env post2 hagg]
      exact ⟨rfl, rfl, Iff.rfl⟩
    | some x =>
      obtain ⟨h1, h2, h3⟩ := submitLoop_pattern post post2 x.apiEndpoint x.apiAuthToken
        x.payload 5 hsame 5 1 5000 0 0 (by omega)
      rw [run_of_some env post x hagg, run_of_some env post2 x hagg]
      simp only [posts_append, sleeps_append, failures_append, h1, h2]
      refine ⟨by simp [posts], by simp [sleeps], ?_⟩
      simp only [failures, List.append_nil, List.append_eq_nil]
      exact ⟨fun h => ⟨h.1, h3.mp h.2⟩, fun h => ⟨h.1, h3.mpr h.2⟩⟩

/-- Witness of C6: five 404 answers against a 500 followed by four attempts
without a response. -/
theorem C6_retry_ignores_status_witness :
    posts (run sampleEnv alwaysNotFound).trace = posts (run sampleEnv answeredOnce).trace ∧
    sleeps (run sampleEnv alwaysNotFound).trace =
      sleeps (run sampleEnv answeredOnce).trace ∧
    (failures (run sampleEnv alwaysNotFound).trace = [] ↔
      failures (run sampleEnv answeredOnce).trace = []) :=
  C6_retry_ignores_status sampleEnv alwaysNotFound answeredOnce (fun i => by
    unfold alwaysNotFound answeredOnce
    split <;> rfl)

/-! ## The claims about the early exits and the fetches -/

/-- C8: when the event payload has no pull request (the value is absent, `null`,
or otherwise falsy, so the test `!context.payload.pull_request` holds), the run
makes no fetch and no POST, and it ends marked failed. -/
theorem C8_no_pull_request (env : Env) (post : Nat → PostOutcome)
    (hpr : env.pull_request.truthy = false) :
    fetches (run env post).trace = [] ∧ posts (run env post).trace = 0 ∧
    failures (run env post).trace ≠ [] := by
  rcases aggregate_cases env with ⟨e, he⟩ | ⟨_, he⟩ | ⟨_, ht, _⟩ |
    ⟨_, _, _, _, _, _, _, _, ht, _⟩
  · rw [run_of_error env post e (by rw [he]), he]
    simp [fetches, posts, failures]
  · rw [run_of_none env post (by rw [he]), he]
    simp [fetches, posts, failures]
  · rw [hpr] at ht
    cases ht
  · rw [hpr] at ht
    cases ht

/-- Witness of C8: a push event, whose payload has no `pull_request`. -/
theorem C8_no_pull_request_witness :
    fetches (run pushEventEnv alwaysOk).trace = [] ∧
    posts (run pushEventEnv alwaysOk).trace = 0 ∧
    failures (run pushEventEnv alwaysOk).trace ≠ [] :=
  C8_no_pull_request pushEventEnv alwaysOk rfl

/-- C9, counterexample: a pull request closed without merging, in a run whose
`teampulse_token` input is not supplied. The context is a pull-request context
and its `merged` flag is false, yet the run ends marked failed:
`core.getInput` throws on line 10, before the context checks, and the outer
`catch` calls `setFailed`. -/
theorem C9_counterexample :
    missingTokenEnv.pull_request.truthy = true ∧
    missingTokenEnv.pull_request.get "merged" = .ok (.bool false) ∧
    fetches (run missingTokenEnv alwaysOk).trace = [] ∧
    posts (run missingTokenEnv alwaysOk).trace = 0 ∧
    failures (run missingTokenEnv alwaysOk).trace =
      ["Action failed: Input required and not supplied: teampulse_token"] ∧
    failures (run missingTokenEnv alwaysOk).trace ≠ [] := by
  have hagg : (aggregate missingTokenEnv).val =
      .error (inputNotSupplied "teampulse_token") := rfl
  have htrace : (aggregate missingTokenEnv).trace = [] := rfl
  refine ⟨rfl, rfl, ?_, ?_, ?_, ?_⟩ <;>
    rw [run_of_error missingTokenEnv alwaysOk (inputNotSupplied "teampulse_token") hagg,
      htrace]
  · rfl
  · rfl
  · rfl
  · simp [failures]

/-- C9, amended: a pull-request context whose `merged` flag is false (or
otherwise falsy) makes the run end with no fetch and no POST; when the three
required inputs `github_token`, `api_endpoint` and `teampulse_token` are
supplied, the run also ends without being marked failed. -/
theorem C9_not_merged (env : Env) (post : Nat → PostOutcome) (merged : JSValue)
    (hpr : env.pull_request.truthy = true)
    (hget : env.pull_request.get "merged" = .ok merged)
    (hmerged : merged.truthy = false) :
    fetches (run env post).trace = [] ∧ posts (run env post).trace = 0 ∧
    ((∃ githubToken, env.getInput "github_token" = .ok githubToken) →
      (∃ apiEndpoint, env.getInput "api_endpoint" = .ok apiEndpoint) →
      (∃ apiAuthToken, env.getInput "teampulse_token" = .ok apiAuthToken) →
      failures (run env post).trace = []) := by
  refine ⟨?_, ?_, ?_⟩
  · rcases aggregate_cases env with ⟨e, he⟩ | ⟨ht, _⟩ | ⟨_, _, _, _, _, he⟩ |
      ⟨_, _, m, _, _, _, _, _, _, hm, hmt, _⟩
    · rw [run_of_error env post e (by rw [he]), he]
      rfl
    · rw [hpr] at ht
      cases ht
    · rw [run_of_none env post (by rw [he]), he]
      rfl
    · rw [hget] at hm
      cases hm
      rw [hmerged] at hmt
      cases hmt
  · rcases aggregate_cases env with ⟨e, he⟩ | ⟨ht, _⟩ | ⟨_, _, _, _, _, he⟩ |
      ⟨_, _, m, _, _, _, _, _, _, hm, hmt, _⟩
    · rw [run_of_error env post e (by rw [he]), he]
      rfl
    · rw [hpr] at ht
      cases ht
    · rw [run_of_none env post (by rw [he]), he]
      rfl
    · rw [hget] at hm
      cases hm
      rw [hmerged] at hmt
      cases hmt
  · rintro ⟨githubToken, h1⟩ ⟨apiEndpoint, h2⟩ ⟨apiAuthToken, h3⟩
    have hagg : aggregate env =
        { trace := [.info "PR is not merged. Skipping action."], val := .ok none } := by
      simp [aggregate, h1, h2, h3, hpr, hget, hmerged, bind_eval_ok, bind_emit, pure_act]
    rw [run_of_none env post (by rw [hagg]), hagg]
    rfl

/-- Witness of C9, amended: a pull request closed without merging, with the
three inputs supplied. -/
theorem C9_not_merged_witness :
    fetches (run unmergedEnv alwaysOk).trace = [] ∧
    posts (run unmergedEnv alwaysOk).trace = 0 ∧
    failures (run unmergedEnv alwaysOk).trace = [] :=
  ⟨(C9_not_merged unmergedEnv alwaysOk (.bool false) rfl rfl rfl).1,
    (C9_not_merged unmergedEnv alwaysOk (.bool false) rfl rfl rfl).2.1,
    (C9_not_merged unmergedEnv alwaysOk (.bool false) rfl rfl rfl).2.2
      ⟨"<github_token>", rfl⟩ ⟨"<api_endpoint>", rfl⟩ ⟨"<teampulse_token>", rfl⟩⟩

/-- The accesses `prDetails.user.id` throw on a summary record whose `user` is
`null`. -/
theorem pullRequestDetails_null (prDetails : JSObject)
    (h : prDetails.get "user" = .null) :
    pullRequestDetails prDetails = .error (typeError "null" "id") := by
  unfold pullRequestDetails
  simp only [h, JSValue.get]
  rfl

/-- C7: when a fetch the run makes fails with an error, that fetch is the last
one the run makes and it is made once (the fetches made are those before it in
the order of `run()`, then it), no POST is made, and the run is marked failed
once, with the message "Action failed: " followed by the error message. A
fetch is only made for a merged pull request. -/
theorem C7_fetch_failure_is_fatal (env : Env) (post : Nat → PostOutcome) (f : Fetch)
    (e : JSError) (hmade : f ∈ fetches (run env post).trace)
    (hfails : env.failure f = some e) :
    fetches (run env post).trace = fetchOrder.takeWhile (fun g => g ≠ f) ++ [f] ∧
    posts (run env post).trace = 0 ∧
    failures (run env post).trace = ["Action failed: " ++ e.message] := by
  rcases aggregate_cases env with ⟨e1, he⟩ | ⟨_, he⟩ | ⟨_, _, _, _, _, he⟩ |
    ⟨ep, tok, merged, owner, repo, n, _, _, _, _, _, _, _, he⟩
  · rw [run_of_error env post e1 (by rw [he]), he] at hmade
    simp [fetches] at hmade
  · rw [run_of_none env post (by rw [he]), he] at hmade
    simp [fetches] at hmade
  · rw [run_of_none env post (by rw [he]), he] at hmade
    simp [fetches] at hmade
  · rcases collect_cases env owner repo n ep tok with ⟨e1, g1, hc⟩ | ⟨_, e1, g1, _, hc⟩ |
      ⟨_, _, e1, g1, _, g2, hc⟩ | ⟨_, _, _, e1, g1, _, g2, g3, hc⟩ |
      ⟨_, _, _, _, e1, g1, _, g2, g3, g4, hc⟩ |
      ⟨_, _, _, _, _, e1, g1, _, g2, g3, g4, g5, hc⟩ |
      ⟨prd, det, c, r, rc, tl, g1, _, g2, g3, g4, g5, hc⟩
    · rw [run_of_error env post e1 (by rw [he, hc]), he, hc] at hmade ⊢
      cases f <;>
        simp [allFetches, fetches, posts, failures, fetchOrder, Env.failure, g1] at hmade hfails ⊢
      rw [hfails]
    · rw [run_of_error env post e1 (by rw [he, hc]), he, hc] at hmade ⊢
      cases f <;>
        simp [allFetches, fetches, posts, failures, fetchOrder, Env.failure, g1] at hmade hfails ⊢
    · rw [run_of_error env post e1 (by rw [he, hc]), he, hc] at hmade ⊢
      cases f <;>
        simp [allFetches, fetches, posts, failures, fetchOrder, Env.failure, g1, g2]
          at hmade hfails ⊢
      rw [hfails]
    · rw [run_of_error env post e1 (by rw [he, hc]), he, hc] at hmade ⊢
      cases f <;>
        simp [allFetches, fetches, posts, failures, fetchOrder, Env.failure, g1, g2, g3]
          at hmade hfails ⊢
      rw [hfails]
    · rw [run_of_error env post e1 (by rw [he, hc]), he, hc] at hmade ⊢
      cases f <;>
        simp [allFetches, fetches, posts, failures, fetchOrder, Env.failure, g1, g2, g3, g4]
          at hmade hfails ⊢
      rw [hfails]
    · rw [run_of_error env post e1 (by rw [he, hc]), he, hc] at hmade ⊢
      cases f <;>
        simp [allFetches, fetches, posts, failures, fetchOrder, Env.failure, g1, g2, g3, g4,
          g5] at hmade hfails ⊢
      rw [hfails]
    · cases f <;> simp [Env.failure, g1, g2, g3, g4, g5] at hfails

/-- Witness of C7: the reviews stream fails after the summary and the comments
were fetched. -/
theorem C7_fetch_failure_is_fatal_witness :
    fetches (run rateLimitedEnv alwaysOk).trace = [.pullsGet, .listComments, .listReviews] ∧
    posts (run rateLimitedEnv alwaysOk).trace = 0 ∧
    failures (run rateLimitedEnv alwaysOk).trace =
      ["Action failed: Request failed with status code 403"] :=
  C7_fetch_failure_is_fatal rateLimitedEnv alwaysOk .listReviews (httpError 403)
    (by decide) rfl

/-- C10: when the summary record of the pull request is fetched (which the run
only does for a merged pull request) and its `user` is `null`, the run fetches
none of the four streams, makes no POST, never sets `http_status`, and ends
marked failed with a message that starts with "Action failed: ". -/
theorem C10_summary_without_user (env : Env) (post : Nat → PostOutcome)
    (prDetails : JSObject) (hmade : Fetch.pullsGet ∈ fetches (run env post).trace)
    (hget : env.pullsGet = .ok prDetails) (huser : prDetails.get "user" = .null) :
    fetches (run env post).trace = [.pullsGet] ∧
    posts (run env post).trace = 0 ∧
    httpStatus (run env post).trace = [] ∧
    ∃ msg, failures (run env post).trace = ["Action failed: " ++ msg] := by
  have hthrow := pullRequestDetails_null prDetails huser
  rcases aggregate_cases env with ⟨e1, he⟩ | ⟨_, he⟩ | ⟨_, _, _, _, _, he⟩ |
    ⟨ep, tok, merged, owner, repo, n, _, _, _, _, _, _, _, he⟩
  · rw [run_of_error env post e1 (by rw [he]), he] at hmade
    simp [fetches] at hmade
  · rw [run_of_none env post (by rw [he]), he] at hmade
    simp [fetches] at hmade
  · rw [run_of_none env post (by rw [he]), he] at hmade
    simp [fetches] at hmade
  · rcases collect_cases env owner repo n ep tok with ⟨e1, g1, hc⟩ | ⟨prd, e1, g1, g2, hc⟩ |
      ⟨prd, _, _, g1, g2, _⟩ | ⟨prd, _, _, _, g1, g2, _⟩ |
      ⟨prd, _, _, _, _, g1, g2, _⟩ | ⟨prd, _, _, _, _, _, g1, g2, _⟩ |
      ⟨prd, _, _, _, _, _, g1, g2, _⟩
    · rw [hget] at g1
      cases g1
    · rw [run_of_error env post e1 (by rw [he, hc]), he, hc]
      exact ⟨rfl, rfl, rfl, e1.message, rfl⟩
    all_goals
      rw [hget] at g1
      cases g1
      rw [hthrow] at g2
      cases g2

/-- Witness of C10: the author's account was deleted. -/
theorem C10_summary_without_user_witness :
    fetches (run ghostAuthorEnv alwaysOk).trace = [.pullsGet] ∧
    posts (run ghostAuthorEnv alwaysOk).trace = 0 ∧
    httpStatus (run ghostAuthorEnv alwaysOk).trace = [] ∧
    ∃ msg, failures (run ghostAuthorEnv alwaysOk).trace = ["Action failed: " ++ msg] :=
  C10_summary_without_user ghostAuthorEnv alwaysOk
    [("id", .num 1001), ("number", .num 7), ("user", .null)] (by decide) rfl rfl

/-! ## The claims about the payload -/

/-- The aggregation makes no POST. -/
theorem aggregate_no_bodies (env : Env) : bodies (aggregate env).trace = [] := by
  rcases aggregate_cases env with ⟨e1, he⟩ | ⟨_, he⟩ | ⟨_, _, _, _, _, he⟩ |
    ⟨ep, tok, merged, owner, repo, n, _, _, _, _, _, _, _, he⟩
  · rw [he]; rfl
  · rw [he]; rfl
  · rw [he]; rfl
  · rw [he]
    rcases collect_cases env owner repo n ep tok with ⟨_, _, hc⟩ | ⟨_, _, _, _, hc⟩ |
      ⟨_, _, _, _, _, _, hc⟩ | ⟨_, _, _, _, _, _, _, _, hc⟩ |
      ⟨_, _, _, _, _, _, _, _, _, _, hc⟩ | ⟨_, _, _, _, _, _, _, _, _, _, _, _, hc⟩ |
      ⟨_, _, _, _, _, _, _, _, _, _, _, _, hc⟩ <;>
    · rw [hc]; rfl

/-- A body the run POSTs is the payload the aggregation returned. -/
theorem body_of_run (env : Env) (post : Nat → PostOutcome) (b : JSValue)
    (hb : b ∈ bodies (run env post).trace) :
    ∃ x, (aggregate env).val = .ok (some x) ∧ b = x.payload := by
  have hnone := aggregate_no_bodies env
  cases hagg : (aggregate env).val with
  | error e =>
    rw [run_of_error env post e hagg, bodies_append, hnone] at hb
    simp [bodies] at hb
  | ok prepared =>
    cases prepared with
    | none =>
      rw [run_of_none env post hagg, hnone] at hb
      simp at hb
    | some x =>
      refine ⟨x, rfl, ?_⟩
      obtain ⟨_, _, hall⟩ := submitLoop_quiet post x.apiEndpoint x.apiAuthToken x.payload 5 5
        1 5000 0 (by omega)
      rw [run_of_some env post x hagg, bodies_append, bodies_append, hnone] at hb
      simp only [List.nil_append, bodies, List.append_nil] at hb
      exact hall b hb

/-- The sequences of a payload are the ones it was built from. -/
theorem payloadSeq_payloadOf (owner repo : String) (det : JSValue)
    (comments reviews review_comments timeline : List JSValue) (s : Stream) :
    payloadSeq (payloadOf owner repo det comments reviews review_comments timeline) s.key =
      match s with
      | .comments => comments
      | .reviews => reviews
      | .review_comments => review_comments
      | .timeline => timeline := by
  cases s <;> rfl

/-- The sequence of a stream in a POSTed body is the projection of the
concatenated pages of that stream. -/
theorem stream_of_body (env : Env) (post : Nat → PostOutcome) (b : JSValue) (s : Stream)
    (pages : List (List JSObject)) (hb : b ∈ bodies (run env post).trace)
    (hp : env.pages s = .ok pages) :
    payloadSeq b s.key = pages.flatten.map s.project := by
  obtain ⟨x, hagg, hbx⟩ := body_of_run env post b hb
  obtain ⟨owner, repo, n, det, c, r, rc, tl, h1, h2, h3, h4, _, hx⟩ :=
    aggregate_some env x hagg
  rw [hbx, hx, payloadSeq_payloadOf]
  cases s <;> simp only [Env.pages, h1, h2, h3, h4, Except.ok.injEq] at hp <;>
    simp [hp, Stream.project]

/-- C5: for each of the four streams and every list of pages the paginated
source returns for it, the sequence of that stream in the payload the run
POSTs is the per-record projection mapped over the concatenation of the pages
in order: it has as many entries as the pages have items in total, and its
i-th entry is the projection of the i-th item. -/
theorem C5_pages_in_order (env : Env) (post : Nat → PostOutcome) (b : JSValue) (s : Stream)
    (pages : List (List JSObject)) (hb : b ∈ bodies (run env post).trace)
    (hp : env.pages s = .ok pages) :
    payloadSeq b s.key = pages.flatten.map s.project ∧
    (payloadSeq b s.key).length = (pages.map List.length).sum ∧
    ∀ i : Nat, (payloadSeq b s.key)[i]? = (pages.flatten[i]?).map s.project := by
  have h := stream_of_body env post b s pages hb hp
  refine ⟨h, ?_, ?_⟩
  · rw [h, List.length_map, List.length_flatten]
  · intro i
    rw [h, List.getElem?_map]

/-- With every attempt answered with 200 in the sample environment, the run
POSTs the payload once. -/
theorem bodies_sample :
    bodies (run sampleEnv alwaysOk).trace = [samplePrepared.payload] := by
  rw [run_of_some sampleEnv alwaysOk samplePrepared aggregate_sampleEnv,
    submitLoop_resolve alwaysOk _ _ _ 5 1 5000 0 (by omega) { status := 200 } rfl]
  rfl

/-- Witness of C5: the comments of the sample environment come in two pages,
of two records and of one. -/
theorem C5_pages_in_order_witness :
    payloadSeq samplePrepared.payload "comments" =
      [commentOf (sampleRecord 1), commentOf (ghostRecord 2), commentOf (sampleRecord 3)] ∧
    (payloadSeq samplePrepared.payload "comments").length = 3 ∧
    ∀ i : Nat, (payloadSeq samplePrepared.payload "comments")[i]? =
      ([sampleRecord 1, ghostRecord 2, sampleRecord 3][i]?).map commentOf :=
  C5_pages_in_order sampleEnv alwaysOk samplePrepared.payload .comments
    [[sampleRecord 1, ghostRecord 2], [sampleRecord 3]]
    (by rw [bodies_sample]; exact List.mem_singleton.mpr rfl) rfl

/-- The `user` literal built from a `null` user. -/
theorem userOf_null : userOf .null = undefinedUser := rfl

/-- Serializing the `user` literal built from a `null` user leaves no key. -/
theorem stringify_undefinedUser : undefinedUser.stringify = some (.obj []) := rfl

/-- A property whose value serializes is kept by the serialization of the
object. -/
theorem mem_stringifyFields (fields : List (String × JSValue)) (k : String) (v : JSValue)
    (j : Json) (hmem : (k, v) ∈ fields) (hj : v.stringify = some j) :
    (k, j) ∈ stringifyFields fields := by
  induction fields with
  | nil => cases hmem
  | cons head rest ih =>
    obtain ⟨k0, v0⟩ := head
    rcases List.mem_cons.mp hmem with heq | hrest
    · cases heq
      simp [stringifyFields, hj]
    · have := ih hrest
      cases h0 : v0.stringify with
      | none => simpa [stringifyFields, h0] using this
      | some j0 => simp [stringifyFields, h0, this]

/-- C3, counterexample: the second issue comment of the sample environment has
a `null` user. In the payload the run POSTs, the `user` of its entry holds
`undefined`, not `null`, under each of the four keys, and the JSON
serialization of that `user` has no key at all. -/
theorem C3_counterexample :
    bodies (run sampleEnv alwaysOk).trace = [samplePrepared.payload] ∧
    sampleEnv.listComments = .ok [[sampleRecord 1, ghostRecord 2], [sampleRecord 3]] ∧
    (ghostRecord 2).get "user" = .null ∧
    ∃ entry, (payloadSeq samplePrepared.payload "comments")[1]? = some entry ∧
      (entry.optGet "user").optGet "id" = .undefined ∧
      (entry.optGet "user").optGet "login" = .undefined ∧
      (entry.optGet "user").optGet "avatar_url" = .undefined ∧
      (entry.optGet "user").optGet "type" = .undefined ∧
      (entry.optGet "user").optGet "id" ≠ .null ∧
      ((entry.optGet "user").stringify).map Json.keys = some [] :=
  ⟨bodies_sample, rfl, rfl, commentOf (ghostRecord 2), rfl, rfl, rfl, rfl, rfl,
    fun h => JSValue.noConfusion h, rfl⟩

/-- C3, amended: for every issue comment, review and review comment returned by
the source whose `user` is `null`, the corresponding entry of the payload the
run POSTs has a `user` object with the four keys id, login, avatar_url and
type, each holding `undefined`; in the JSON-serialized payload the entry keeps
its `user` key, whose value is the empty object. -/
theorem C3_absent_user_is_undefined (env : Env) (post : Nat → PostOutcome) (b : JSValue)
    (s : Stream) (pages : List (List JSObject)) (i : Nat) (record : JSObject)
    (hb : b ∈ bodies (run env post).trace) (hs : s ≠ .timeline)
    (hp : env.pages s = .ok pages) (hi : pages.flatten[i]? = some record)
    (huser : record.get "user" = .null) :
    ∃ entry, (payloadSeq b s.key)[i]? = some entry ∧
      entry.optGet "user" =
        .obj [("id", .undefined), ("login", .undefined), ("avatar_url", .undefined),
          ("type", .undefined)] ∧
      ∃ fields, entry.stringify = some (.obj fields) ∧ ("user", Json.obj []) ∈ fields := by
  have h := stream_of_body env post b s pages hb hp
  refine ⟨s.project record, by rw [h, List.getElem?_map, hi]; rfl, ?_, ?_⟩
  · cases s with
    | timeline => exact absurd rfl hs
    | comments => simp [Stream.project, commentOf, JSValue.optGet, JSObject.get, huser, userOf]
    | reviews => simp [Stream.project, reviewOf, JSValue.optGet, JSObject.get, huser, userOf]
    | review_comments =>
      simp [Stream.project, reviewCommentOf, JSValue.optGet, JSObject.get, huser, userOf]
  · cases s with
    | timeline => exact absurd rfl hs
    | comments =>
      exact ⟨_, rfl, mem_stringifyFields _ "user" undefinedUser _
        (by simp [huser, userOf_null]) stringify_undefinedUser⟩
    | reviews =>
      exact ⟨_, rfl, mem_stringifyFields _ "user" undefinedUser _
        (by simp [huser, userOf_null]) stringify_undefinedUser⟩
    | review_comments =>
      exact ⟨_, rfl, mem_stringifyFields _ "user" undefinedUser _
        (by simp [huser, userOf_null]) stringify_undefinedUser⟩

/-- Witness of C3, amended: the review of the sample environment, whose author
is gone. -/
theorem C3_absent_user_is_undefined_witness :
    ∃ entry, (payloadSeq samplePrepared.payload "reviews")[0]? = some entry ∧
      entry.optGet "user" =
        .obj [("id", .undefined), ("login", .undefined), ("avatar_url", .undefined),
          ("type", .undefined)] ∧
      ∃ fields, entry.stringify = some (.obj fields) ∧ ("user", Json.obj []) ∈ fields :=
  C3_absent_user_is_undefined sampleEnv alwaysOk samplePrepared.payload .reviews
    [[ghostRecord 4]] 0 (ghostRecord 4)
    (by rw [bodies_sample]; exact List.mem_singleton.mpr rfl) (by decide) rfl rfl rfl

end TeamPulse
